import Mathlib

set_option maxRecDepth 8192

/-!
Verification of the REST2NOSTR multi-relay orchestration layer.

The definitions below are a shallow embedding of the JavaScript sources:
  * `src/adapters/index.js`   (relay pool: `broadcastEvent`, `queryAllRelays`)
  * `src/use-cases/publish-event.js`   (`PublishEventUseCase.execute`)
  * `src/use-cases/manage-subscription.js`   (`ManageSubscriptionUseCase`)
Stateful code is embedded as explicit state passing; callback invocations and
relay operations are recorded as explicit output/effect lists; JavaScript
promises that can reject are embedded as `Except` results.
-/

/-- A Nostr event envelope as handled by the system (`{id, pubkey, created_at,
kind, tags, content, sig}`).  A possibly-`null` JavaScript event value is
embedded as `Option NostrEvent`; the JavaScript truthiness test
`event && event.id` becomes `e.id ≠ ""` on the `some` case. -/
structure NostrEvent where
  id : String
  pubkey : String
  created_at : Int
  kind : Nat
  tags : List (List String)
  content : String
  sig : String
deriving DecidableEq

/-- The id contributed by a (possibly null) event value when it passes the
JavaScript guard `event && event.id`. -/
def truthyId : Option NostrEvent → Option String
  | none => none
  | some e => if e.id = "" then none else some e.id

/-- The list of event ids of a collection (`Array.from(eventMap.keys())`). -/
def idsOf (l : List NostrEvent) : List String := l.map (fun e => e.id)

/-- JavaScript `eventMap.has(event.id)` over the insertion-ordered map,
represented as the list of values inserted so far. -/
def hasId (acc : List NostrEvent) (x : String) : Bool :=
  acc.any (fun e => e.id == x)

/-- One step of the merge loop in `Adapters.queryAllRelays`
(src/adapters/index.js, `allEvents.forEach`): insert the event into the map
keyed by id when `event && event.id && !eventMap.has(event.id)`. -/
def eventMapInsert (acc : List NostrEvent) (ev : Option NostrEvent) : List NostrEvent :=
  match ev with
  | none => acc
  | some e => if e.id ≠ "" ∧ hasId acc e.id = false then acc ++ [e] else acc

/-- The merge/de-duplication pass of `Adapters.queryAllRelays`
(src/adapters/index.js lines 203-210): fold the collector through the
insertion-ordered event map and return its values. -/
def mergeDedup (allEvents : List (Option NostrEvent)) : List NostrEvent :=
  allEvents.foldl eventMapInsert []

/-- The first event of the collector carrying the given (truthy) id; the
representative that "first-seen wins" selects. -/
def firstWithId (l : List (Option NostrEvent)) (x : String) : Option NostrEvent :=
  match l with
  | [] => none
  | a :: rest =>
    match a with
    | some e => if e.id ≠ "" ∧ e.id = x then some e else firstWithId rest x
    | none => firstWithId rest x

/-- One step of the unified `handlers.onEvent` of
`ManageSubscriptionUseCase.createSubscription`
(src/use-cases/manage-subscription.js lines 49-57): state is the
`seenEventIds` set paired with the list of events delivered to the external
`onEvent` callback so far. -/
def subEventStep (st : List String × List NostrEvent) (ev : Option NostrEvent) :
    List String × List NostrEvent :=
  match ev with
  | none => st
  | some e =>
    if e.id ≠ "" ∧ e.id ∉ st.1 then (st.1 ++ [e.id], st.2 ++ [e]) else st

/-- The events delivered to the external `onEvent` callback of a live
subscription when the given stream of per-relay events arrives. -/
def processEvents (stream : List (Option NostrEvent)) : List NostrEvent :=
  (stream.foldl subEventStep ([], [])).2

theorem hasId_iff (acc : List NostrEvent) (x : String) :
    hasId acc x = true ↔ x ∈ idsOf acc := by
  simp only [hasId, idsOf, List.any_eq_true, List.mem_map, beq_iff_eq]

theorem hasId_false_iff (acc : List NostrEvent) (x : String) :
    hasId acc x = false ↔ x ∉ idsOf acc := by
  rw [← Bool.not_eq_true, not_iff_not]
  exact hasId_iff acc x

theorem mem_idsOf_eventMapInsert (acc : List NostrEvent) (a : Option NostrEvent)
    (x : String) :
    x ∈ idsOf (eventMapInsert acc a) ↔ x ∈ idsOf acc ∨ truthyId a = some x := by
  match a with
  | none => simp [eventMapInsert, truthyId]
  | some e =>
    by_cases h1 : e.id = ""
    · simp [eventMapInsert, truthyId, h1]
    · by_cases h2 : hasId acc e.id = false
      · have hx : x ∈ idsOf acc ++ [e.id] ↔ x ∈ idsOf acc ∨ x = e.id := by
          simp [List.mem_append]
        simp only [eventMapInsert, truthyId, if_pos (And.intro h1 h2), if_neg h1,
          idsOf, List.map_append]
        constructor
        · intro hmem
          rcases (by simpa [idsOf] using hmem : x ∈ idsOf acc ∨ x = e.id) with h | h
          · exact Or.inl h
          · exact Or.inr (by rw [h])
        · intro hmem
          rcases hmem with h | h
          · simpa [idsOf] using Or.inl h
          · have : x = e.id := by
              have := Option.some.inj h
              exact this.symm
            simpa [idsOf] using Or.inr this
      · have h2' : hasId acc e.id = true := by
          cases hb : hasId acc e.id
          · exact absurd hb h2
          · rfl
        have hmem : e.id ∈ idsOf acc := (hasId_iff acc e.id).mp h2'
        simp only [eventMapInsert, truthyId, if_neg h1]
        have : ¬(e.id ≠ "" ∧ hasId acc e.id = false) := by
          intro hc
          exact h2 hc.2
        rw [if_neg this]
        constructor
        · intro h
          exact Or.inl h
        · intro h
          rcases h with h | h
          · exact h
          · have hx : x = e.id := (Option.some.inj h).symm
            rw [hx]
            exact hmem

theorem idsOf_eventMapInsert_nodup (acc : List NostrEvent) (a : Option NostrEvent)
    (h : (idsOf acc).Nodup) : (idsOf (eventMapInsert acc a)).Nodup := by
  match a with
  | none => simpa [eventMapInsert] using h
  | some e =>
    by_cases hc : e.id ≠ "" ∧ hasId acc e.id = false
    · have hnot : e.id ∉ idsOf acc := (hasId_false_iff acc e.id).mp hc.2
      simp only [eventMapInsert, if_pos hc, idsOf, List.map_append]
      rw [List.nodup_append]
      refine ⟨h, List.nodup_singleton _, ?_⟩
      intro x hx hx2
      have : x = e.id := by simpa using hx2
      rw [this] at hx
      exact hnot hx
    · simpa [eventMapInsert, if_neg hc] using h

theorem idsOf_foldl_nodup (l : List (Option NostrEvent)) :
    ∀ acc : List NostrEvent, (idsOf acc).Nodup →
      (idsOf (l.foldl eventMapInsert acc)).Nodup := by
  induction l with
  | nil => intro acc h; simpa using h
  | cons a rest ih =>
    intro acc h
    simpa [List.foldl_cons] using ih (eventMapInsert acc a) (idsOf_eventMapInsert_nodup acc a h)

theorem mem_idsOf_foldl (l : List (Option NostrEvent)) :
    ∀ (acc : List NostrEvent) (x : String),
      x ∈ idsOf (l.foldl eventMapInsert acc) ↔
        x ∈ idsOf acc ∨ ∃ a ∈ l, truthyId a = some x := by
  induction l with
  | nil => intro acc x; simp
  | cons a rest ih =>
    intro acc x
    rw [List.foldl_cons, ih (eventMapInsert acc a) x, mem_idsOf_eventMapInsert]
    constructor
    · rintro ((h | h) | ⟨b, hb, htb⟩)
      · exact Or.inl h
      · exact Or.inr ⟨a, List.mem_cons_self a rest, h⟩
      · exact Or.inr ⟨b, List.mem_cons_of_mem a hb, htb⟩
    · rintro (h | ⟨b, hb, htb⟩)
      · exact Or.inl (Or.inl h)
      · rcases List.mem_cons.mp hb with hba | hbr

        · exact Or.inl (Or.inr (by rw [← hba]; exact htb))
        · exact Or.inr ⟨b, hbr, htb⟩

theorem eventMapInsert_first_wins (l : List (Option NostrEvent)) :
    ∀ (acc : List NostrEvent) (e : NostrEvent),
      e ∈ l.foldl eventMapInsert acc →
      e ∈ acc ∨ (e.id ∉ idsOf acc ∧ firstWithId l e.id = some e) := by
  induction l with
  | nil => intro acc e h; exact Or.inl (by simpa using h)
  | cons a rest ih =>
    intro acc e h
    rw [List.foldl_cons] at h
    rcases ih (eventMapInsert acc a) e h with hmem | ⟨hnot, hfirst⟩
    · match a with
      | none => exact Or.inl (by simpa [eventMapInsert] using hmem)
      | some ev =>
        by_cases hc : ev.id ≠ "" ∧ hasId acc ev.id = false
        · simp only [eventMapInsert, if_pos hc] at hmem
          rcases List.mem_append.mp hmem with h1 | h2
          · exact Or.inl h1
          · have he : e = ev := by simpa using h2
            subst he
            refine Or.inr ⟨(hasId_false_iff acc e.id).mp hc.2, ?_⟩
            simp [firstWithId, hc.1]
        · simp only [eventMapInsert, if_neg hc] at hmem
          exact Or.inl hmem
    · have hsub1 : e.id ∉ idsOf acc := by
        intro hx
        exact hnot ((mem_idsOf_eventMapInsert acc a e.id).mpr (Or.inl hx))
      have hsub2 : ¬ truthyId a = some e.id := by
        intro hx
        exact hnot ((mem_idsOf_eventMapInsert acc a e.id).mpr (Or.inr hx))
      refine Or.inr ⟨hsub1, ?_⟩
      match a with
      | none => simpa [firstWithId] using hfirst
      | some ev =>
        by_cases hcond : ev.id ≠ "" ∧ ev.id = e.id
        · exfalso
          apply hsub2
          have hte : truthyId (some ev) = some ev.id := by
            simp [truthyId, hcond.1]
          rw [hte, hcond.2]
        · simpa [firstWithId, if_neg hcond] using hfirst

theorem count_idsOf_mergeDedup (l : List (Option NostrEvent)) (x : String)
    (h : ∃ a ∈ l, truthyId a = some x) :
    (idsOf (mergeDedup l)).count x = 1 := by
  have hmem : x ∈ idsOf (mergeDedup l) := by
    rw [mergeDedup, mem_idsOf_foldl l [] x]
    exact Or.inr h
  have hnd : (idsOf (mergeDedup l)).Nodup :=
    idsOf_foldl_nodup l [] (by simp [idsOf])
  exact List.count_eq_one_of_mem hnd hmem

theorem subEventStep_eq (acc : List NostrEvent) (a : Option NostrEvent) :
    subEventStep (idsOf acc, acc) a = (idsOf (eventMapInsert acc a), eventMapInsert acc a) := by
  match a with
  | none => simp [subEventStep, eventMapInsert]
  | some e =>
    by_cases h1 : e.id = ""
    · simp [subEventStep, eventMapInsert, h1]
    · by_cases h2 : e.id ∈ idsOf acc
      · have hh : hasId acc e.id = true := (hasId_iff acc e.id).mpr h2
        simp [subEventStep, eventMapInsert, h1, h2, hh]
      · have hh : hasId acc e.id = false := (hasId_false_iff acc e.id).mpr h2
        simp [subEventStep, eventMapInsert, h1, h2, hh, idsOf]
        intro x hx hxe
        exact h2 (by simpa [idsOf] using List.mem_map.mpr ⟨x, hx, hxe⟩)

theorem foldl_subEventStep_eq (l : List (Option NostrEvent)) :
    ∀ acc : List NostrEvent,
      l.foldl subEventStep (idsOf acc, acc) =
        (idsOf (l.foldl eventMapInsert acc), l.foldl eventMapInsert acc) := by
  induction l with
  | nil => intro acc; simp
  | cons a rest ih =>
    intro acc
    rw [List.foldl_cons, subEventStep_eq, List.foldl_cons]
    exact ih (eventMapInsert acc a)

theorem processEvents_eq_mergeDedup (l : List (Option NostrEvent)) :
    processEvents l = mergeDedup l := by
  have h0 : (([] : List String), ([] : List NostrEvent)) = (idsOf [], ([] : List NostrEvent)) := by
    simp [idsOf]
  simp only [processEvents, mergeDedup, h0, foldl_subEventStep_eq]

/-- Claim C5: for every pair of relays emitting events during a query or a
live subscription, an event id emitted by both relays is delivered to the
caller exactly once (the first-seen occurrence wins) while events with
distinct ids are all delivered; the merged query result contains no two
events with the same id.  Formalised as: the merged result of
`queryAllRelays` has pairwise-distinct ids; every id that passes the
truthiness guard anywhere in the collector appears in the merged result
exactly once; every delivered event is the first occurrence of its id in the
collector; and the live-subscription dedup (`handlers.onEvent`) delivers
exactly the same events as the query-side merge. -/
theorem dedup_law :
    (∀ l : List (Option NostrEvent), (idsOf (mergeDedup l)).Nodup) ∧
    (∀ (l : List (Option NostrEvent)) (x : String),
       (∃ a ∈ l, truthyId a = some x) → (idsOf (mergeDedup l)).count x = 1) ∧
    (∀ (l : List (Option NostrEvent)) (e : NostrEvent),
       e ∈ mergeDedup l → firstWithId l e.id = some e) ∧
    (∀ l : List (Option NostrEvent), processEvents l = mergeDedup l) := by
  refine ⟨?_, ?_, ?_, ?_⟩
  · intro l
    exact idsOf_foldl_nodup l [] (by simp [idsOf])
  · intro l x h
    exact count_idsOf_mergeDedup l x h
  · intro l e h
    rcases eventMapInsert_first_wins l [] e h with h1 | h2
    · exact absurd h1 (List.not_mem_nil e)
    · exact h2.2
  · intro l
    exact processEvents_eq_mergeDedup l

/-- A minimal event envelope used for concrete evaluations. -/
def mkEv (i : String) : NostrEvent :=
  { id := i, pubkey := "", created_at := 0, kind := 1, tags := [], content := "", sig := "" }

/-- A concrete collector: relay A emitted events a, b; relay B emitted a, c;
plus one null frame. -/
def dedupSample : List (Option NostrEvent) :=
  [some (mkEv "a"), some (mkEv "b"), some (mkEv "a"), none, some (mkEv "c")]

theorem dedup_law_witness :
    (idsOf (mergeDedup dedupSample)).Nodup ∧
    (idsOf (mergeDedup dedupSample)).count "a" = 1 ∧
    firstWithId dedupSample (mkEv "a").id = some (mkEv "a") ∧
    processEvents dedupSample = mergeDedup dedupSample :=
  ⟨dedup_law.1 dedupSample,
   dedup_law.2.1 dedupSample "a" (by decide),
   dedup_law.2.2.1 dedupSample (mkEv "a") (by decide),
   dedup_law.2.2.2 dedupSample⟩

/-- How a relay answers a transient query subscription: `eose` (end of stored
events), `closed` with a reason, or silence until the 30-second wait-loop
bound (`timeout`). -/
inductive QueryOutcome
  | eose
  | closed (reason : String)
  | timeout
deriving DecidableEq

/-- The behaviour of one relay during `Adapters.queryAllRelays`: either the
initial `sendReq` rejects, or the relay streams a list of events and then
settles with a `QueryOutcome`. -/
inductive RelayQueryResp
  | reqFail (msg : String)
  | streamed (events : List (Option NostrEvent)) (outcome : QueryOutcome)
deriving DecidableEq

/-- Observable outcome of one per-relay query task: the events pushed into the
shared `allEvents` collector, how many times `sendClose` was issued, whether a
warning was logged, and whether the task let an error escape. -/
structure RelayTaskResult where
  collected : List (Option NostrEvent)
  closeCalls : Nat
  warned : Bool
  raised : Bool
deriving DecidableEq

/-- One per-relay task of `Adapters.queryAllRelays` (src/adapters/index.js
lines 143-197).  `sendReq` failure jumps to the catch block: best-effort
`sendClose`, a warning, no escape.  Otherwise events accumulate, the wait
loop ends on EOSE/CLOSED/timeout, `sendClose` is always issued; a CLOSED
status then throws, and the catch block issues a second best-effort
`sendClose` and logs a warning without re-raising. -/
def queryRelayTask (r : RelayQueryResp) : RelayTaskResult :=
  match r with
  | RelayQueryResp.reqFail _ =>
    { collected := [], closeCalls := 1, warned := true, raised := false }
  | RelayQueryResp.streamed evs outcome =>
    match outcome with
    | QueryOutcome.eose =>
      { collected := evs, closeCalls := 1, warned := false, raised := false }
    | QueryOutcome.closed _ =>
      { collected := evs, closeCalls := 2, warned := true, raised := false }
    | QueryOutcome.timeout =>
      { collected := evs, closeCalls := 1, warned := false, raised := false }

/-- `Adapters.queryAllRelays` merged result: all per-relay collectors are
appended into `allEvents` and de-duplicated by event id. -/
def queryAllRelays (resps : List RelayQueryResp) : List NostrEvent :=
  mergeDedup ((resps.map (fun r => (queryRelayTask r).collected)).flatten)

/-- Whether the whole `queryAllRelays` call lets any per-relay error escape
(`Promise.allSettled` plus per-task catch blocks). -/
def queryRaises (resps : List RelayQueryResp) : Bool :=
  resps.any (fun r => (queryRelayTask r).raised)

/-- Claim C4: for every call to `queryAllRelays`, a single relay that times
out waiting for end-of-stream, or that reports a closed signal, never causes
the call to raise: per-relay errors are captured, a closed relay contributes
a warning, the events it emitted before closing are still included in the
merged result, and `sendClose` is issued for every relay unconditionally. -/
theorem query_fault_tolerance :
    (∀ resps : List RelayQueryResp, queryRaises resps = false) ∧
    (∀ r : RelayQueryResp, 1 ≤ (queryRelayTask r).closeCalls) ∧
    (∀ (evs : List (Option NostrEvent)) (reason : String),
       (queryRelayTask (RelayQueryResp.streamed evs (QueryOutcome.closed reason))).warned = true) ∧
    (∀ (resps : List RelayQueryResp) (i : Nat) (evs : List (Option NostrEvent))
       (reason : String) (ev : NostrEvent),
       resps[i]? = some (RelayQueryResp.streamed evs (QueryOutcome.closed reason)) →
       some ev ∈ evs → ev.id ≠ "" →
       ∃ e2 ∈ queryAllRelays resps, e2.id = ev.id) := by
  refine ⟨?_, ?_, ?_, ?_⟩
  · intro resps
    simp only [queryRaises, List.any_eq_false]
    intro r hr
    cases r with
    | reqFail m => simp [queryRelayTask]
    | streamed evs outcome => cases outcome <;> simp [queryRelayTask]
  · intro r
    cases r with
    | reqFail m => exact Nat.le_refl 1
    | streamed evs outcome => cases outcome <;> simp [queryRelayTask]
  · intro evs reason
    rfl
  · intro resps i evs reason ev hget hmem hid
    have hresp : RelayQueryResp.streamed evs (QueryOutcome.closed reason) ∈ resps := by
      rcases List.getElem?_eq_some_iff.mp hget with ⟨hlt, hEq⟩
      rw [← hEq]
      exact List.getElem_mem hlt
    have hevs : evs ∈ resps.map (fun r => (queryRelayTask r).collected) := by
      have : (queryRelayTask (RelayQueryResp.streamed evs (QueryOutcome.closed reason))).collected = evs := rfl
      exact List.mem_map.mpr ⟨RelayQueryResp.streamed evs (QueryOutcome.closed reason), hresp, this⟩
    have hjoin : (some ev : Option NostrEvent) ∈ (resps.map (fun r => (queryRelayTask r).collected)).flatten :=
      List.mem_flatten.mpr ⟨evs, hevs, hmem⟩
    have hids : ev.id ∈ idsOf (queryAllRelays resps) := by
      rw [queryAllRelays, mergeDedup, mem_idsOf_foldl]
      refine Or.inr ⟨some ev, hjoin, ?_⟩
      simp [truthyId, hid]
    rcases List.mem_map.mp hids with ⟨e2, he2, heq⟩
    exact ⟨e2, he2, heq⟩

/-- Concrete relay behaviours: relay 0 emits event a then reports CLOSED;
relay 1 emits event b then EOSE. -/
def querySample : List RelayQueryResp :=
  [RelayQueryResp.streamed [some (mkEv "a")] (QueryOutcome.closed "why"),
   RelayQueryResp.streamed [some (mkEv "b")] QueryOutcome.eose]

theorem query_fault_tolerance_witness :
    queryRaises querySample = false ∧
    1 ≤ (queryRelayTask (RelayQueryResp.reqFail "boom")).closeCalls ∧
    (queryRelayTask (RelayQueryResp.streamed [some (mkEv "a")] (QueryOutcome.closed "why"))).warned = true ∧
    ∃ e2 ∈ queryAllRelays querySample, e2.id = (mkEv "a").id :=
  ⟨query_fault_tolerance.1 querySample,
   query_fault_tolerance.2.1 (RelayQueryResp.reqFail "boom"),
   query_fault_tolerance.2.2.1 [some (mkEv "a")] "why",
   query_fault_tolerance.2.2.2 querySample 0 [some (mkEv "a")] "why" (mkEv "a")
     (by decide) (by decide) (by decide)⟩

/-- Outcome of one relay's `sendEvent` promise during a broadcast: resolution
with `{accepted, message}` or rejection with an error carrying a message. -/
inductive PublishOutcome
  | ok (accepted : Bool) (message : Option String)
  | err (message : Option String)
deriving DecidableEq

/-- One pooled relay connection as seen by `Adapters.broadcastEvent`: its URL
and the behaviour of its `sendEvent` call for the event being broadcast. -/
structure RelayConn where
  relayUrl : String
  publishOutcome : PublishOutcome
deriving DecidableEq

/-- JavaScript `x || d` on an optional (possibly missing or empty) string. -/
def orDefault (m : Option String) (d : String) : String :=
  match m with
  | none => d
  | some s => if s = "" then d else s

/-- One per-relay entry of the broadcast result. -/
structure RelayPublishResult where
  accepted : Bool
  message : String
  relayUrl : String
  success : Bool
deriving DecidableEq

/-- One mapped promise of `Adapters.broadcastEvent` (src/adapters/index.js
lines 85-103): resolution gives `{accepted, message: result.message || '',
relayUrl, success: true}`; rejection is caught and gives `{accepted: false,
message: err.message || 'Error broadcasting to relay', relayUrl,
success: false}`.  The rejected branch of the outer `Promise.allSettled`
(lines 109-117) is unreachable because every mapped promise catches. -/
def broadcastOne (relay : RelayConn) : RelayPublishResult :=
  match relay.publishOutcome with
  | PublishOutcome.ok accepted message =>
    { accepted := accepted, message := orDefault message "",
      relayUrl := relay.relayUrl, success := true }
  | PublishOutcome.err message =>
    { accepted := false, message := orDefault message "Error broadcasting to relay",
      relayUrl := relay.relayUrl, success := false }

/-- `Adapters.broadcastEvent`: one result per relay, in relay order. -/
def broadcastEvent (relays : List RelayConn) : List RelayPublishResult :=
  relays.map broadcastOne

/-- Hexadecimal character test used by the structural event validation. -/
def isHexChar (c : Char) : Bool :=
  c.isDigit || ('a' ≤ c && c ≤ 'f') || ('A' ≤ c && c ≤ 'F')

/-- Modelled from the spec: the Event entity (`src/entities/event.js`) is not
among the provided sources, only its unit tests are.  Per spec §3, validity
is a pure predicate over presence, type and length: `id` and `pubkey` are
fixed-length (64) hex strings, `sig` a fixed-length (128) hex string,
`created_at` a unix-seconds integer, `kind` a bounded non-negative integer
(at most 65535), `tags` an ordered sequence of string sequences, `content` a
string.  The typed fields of `NostrEvent` already enforce the type
constraints, so only the length, hex and bound checks remain. -/
def isValidEvent (e : NostrEvent) : Bool :=
  (e.id.length == 64) && e.id.data.all isHexChar &&
  (e.pubkey.length == 64) && e.pubkey.data.all isHexChar &&
  (decide (e.kind ≤ 65535)) &&
  (e.sig.length == 128) && e.sig.data.all isHexChar

/-- The aggregated human-readable message of `PublishEventUseCase.execute`
(src/use-cases/publish-event.js lines 48-68). -/
def buildPublishMessage (results : List RelayPublishResult) : String :=
  let acceptedRelays := results.filter (fun r => r.accepted)
  let rejectedRelays := results.filter (fun r => !r.accepted)
  let failedRelays := results.filter (fun r => !r.success)
  if acceptedRelays.length = results.length ∧ failedRelays.length = 0 then
    "Accepted by all " ++ toString acceptedRelays.length ++ " relay(s)"
  else if 0 < acceptedRelays.length then
    let base := "Accepted by " ++ toString acceptedRelays.length ++ "/" ++
      toString results.length ++ " relay(s)"
    let base2 := if 0 < rejectedRelays.length then
      base ++ ", rejected by " ++ toString rejectedRelays.length ++ " relay(s)"
      else base
    if 0 < failedRelays.length then
      base2 ++ ", failed to reach " ++ toString failedRelays.length ++ " relay(s)"
      else base2
  else
    let base := "Rejected or failed by all " ++ toString results.length ++ " relay(s)"
    if 0 < rejectedRelays.length then
      let rejectionMessages := String.intercalate "; "
        (((rejectedRelays.map (fun r => r.message)).filter (fun m => m ≠ "")))
      if rejectionMessages ≠ "" then base ++ ": " ++ rejectionMessages else base
    else base

/-- The aggregate returned by `PublishEventUseCase.execute`. -/
structure PublishResult where
  accepted : Bool
  message : String
  eventId : String
  relayResults : List RelayPublishResult
  acceptedCount : Nat
  totalRelays : Nat
deriving DecidableEq

/-- `PublishEventUseCase.execute` (src/use-cases/publish-event.js lines
25-84): validate the event entity, broadcast to all relays, aggregate the
per-relay results.  A structurally invalid event rejects with
`Invalid event structure`. -/
def executePublish (eventData : NostrEvent) (relays : List RelayConn) :
    Except String PublishResult :=
  if isValidEvent eventData = false then Except.error "Invalid event structure"
  else
    let results := broadcastEvent relays
    let acceptedRelays := results.filter (fun r => r.accepted)
    Except.ok
      { accepted := decide (0 < acceptedRelays.length),
        message := buildPublishMessage results,
        eventId := eventData.id,
        relayResults := results,
        acceptedCount := acceptedRelays.length,
        totalRelays := results.length }

theorem executePublish_ok (ev : NostrEvent) (relays : List RelayConn)
    (hval : isValidEvent ev = true) :
    executePublish ev relays = Except.ok
      { accepted := decide (0 < ((broadcastEvent relays).filter (fun r => r.accepted)).length),
        message := buildPublishMessage (broadcastEvent relays),
        eventId := ev.id,
        relayResults := broadcastEvent relays,
        acceptedCount := ((broadcastEvent relays).filter (fun r => r.accepted)).length,
        totalRelays := (broadcastEvent relays).length } := by
  unfold executePublish
  rw [hval]
  simp

/-- Claim C6: for every valid event and every configured relay set of size at
least one, broadcast publish returns exactly one `{accepted, message,
relayUrl, success}` entry per relay (a relay failure produces an entry
rather than aborting the others, witnessed by positional agreement with
`broadcastOne` under arbitrary per-relay outcomes) and `totalRelays` equals
the number of relays. -/
theorem broadcast_publish_counts (ev : NostrEvent) (relays : List RelayConn)
    (hval : isValidEvent ev = true) (_hne : 0 < relays.length) :
    ∃ r : PublishResult, executePublish ev relays = Except.ok r ∧
      r.relayResults.length = relays.length ∧
      r.totalRelays = relays.length ∧
      ∀ i : Nat, r.relayResults[i]? = (relays[i]?).map broadcastOne := by
  refine ⟨_, executePublish_ok ev relays hval, ?_, ?_, ?_⟩
  · simp [broadcastEvent]
  · simp [broadcastEvent]
  · intro i
    simp [broadcastEvent, List.getElem?_map]

/-- A concrete structurally valid event. -/
def sampleEvent : NostrEvent :=
  { id := String.mk (List.replicate 64 'a'),
    pubkey := String.mk (List.replicate 64 'b'),
    created_at := 1700000000,
    kind := 1,
    tags := [["e", "x"]],
    content := "hello",
    sig := String.mk (List.replicate 128 'c') }

/-- A concrete relay set: relay 1 accepts, relay 2's `sendEvent` rejects. -/
def sampleRelays : List RelayConn :=
  [{ relayUrl := "wss://relay1.example.com",
     publishOutcome := PublishOutcome.ok true (some "") },
   { relayUrl := "wss://relay2.example.com",
     publishOutcome := PublishOutcome.err (some "Connection error") }]

theorem broadcast_publish_counts_witness :
    isValidEvent sampleEvent = true ∧ 0 < sampleRelays.length ∧
    ∃ r : PublishResult, executePublish sampleEvent sampleRelays = Except.ok r ∧
      r.relayResults.length = sampleRelays.length ∧
      r.totalRelays = sampleRelays.length ∧
      ∀ i : Nat, r.relayResults[i]? = (sampleRelays[i]?).map broadcastOne :=
  ⟨by decide, by decide,
   broadcast_publish_counts sampleEvent sampleRelays (by decide) (by decide)⟩

/-- Claim C7: for every publish result, `acceptedCount` equals the number of
per-relay results with `accepted = true`, and the top-level `accepted` flag
is true iff at least one relay accepted the event. -/
theorem publish_accept_aggregation (ev : NostrEvent) (relays : List RelayConn)
    (r : PublishResult) (h : executePublish ev relays = Except.ok r) :
    r.acceptedCount = (r.relayResults.filter (fun x => x.accepted)).length ∧
    (r.accepted = true ↔ ∃ x ∈ r.relayResults, x.accepted = true) := by
  by_cases hval : isValidEvent ev = true
  · rw [executePublish_ok ev relays hval] at h
    have hr := (Except.ok.inj h).symm
    subst hr
    refine ⟨rfl, ?_⟩
    simp only [decide_eq_true_eq]
    constructor
    · intro hpos
      rcases List.exists_mem_of_length_pos hpos with ⟨x, hx⟩
      rcases List.mem_filter.mp hx with ⟨hmem, hacc⟩
      exact ⟨x, hmem, hacc⟩
    · rintro ⟨x, hmem, hacc⟩
      have : x ∈ (broadcastEvent relays).filter (fun y => y.accepted) :=
        List.mem_filter.mpr ⟨hmem, hacc⟩
      exact List.length_pos.mpr (List.ne_nil_of_mem this)
  · exfalso
    have hfalse : isValidEvent ev = false := by
      cases hb : isValidEvent ev
      · rfl
      · exact absurd hb hval
    unfold executePublish at h
    rw [hfalse] at h
    simp at h

theorem publish_accept_aggregation_witness :
    ∃ r : PublishResult, executePublish sampleEvent sampleRelays = Except.ok r ∧
      r.acceptedCount = (r.relayResults.filter (fun x => x.accepted)).length ∧
      (r.accepted = true ↔ ∃ x ∈ r.relayResults, x.accepted = true) :=
  ⟨_, executePublish_ok sampleEvent sampleRelays (by decide),
   (publish_accept_aggregation sampleEvent sampleRelays _
     (executePublish_ok sampleEvent sampleRelays (by decide))).1,
   (publish_accept_aggregation sampleEvent sampleRelays _
     (executePublish_ok sampleEvent sampleRelays (by decide))).2⟩

/-- Claim C10 (implicit): the array returned by broadcast publish is
positionally aligned with the configured relay list — for every index the
entry's `relayUrl` is the URL of the relay at that index — and a relay whose
publish rejects still yields an entry at its own position with
`success = false` and `accepted = false` carrying the error message, never
an omitted or shifted entry. -/
theorem broadcast_positional_alignment :
    (∀ (relays : List RelayConn) (i : Nat),
       ((broadcastEvent relays)[i]?).map (fun x => x.relayUrl) =
         (relays[i]?).map (fun c => c.relayUrl)) ∧
    (∀ (relays : List RelayConn) (i : Nat) (c : RelayConn) (m : Option String),
       relays[i]? = some c → c.publishOutcome = PublishOutcome.err m →
       (broadcastEvent relays)[i]? = some
         { accepted := false, message := orDefault m "Error broadcasting to relay",
           relayUrl := c.relayUrl, success := false }) := by
  constructor
  · intro relays i
    rw [broadcastEvent, List.getElem?_map]
    cases relays[i]? with
    | none => rfl
    | some c =>
      cases hc : c.publishOutcome <;> simp [broadcastOne, hc]
  · intro relays i c m hget hout
    rw [broadcastEvent, List.getElem?_map, hget]
    simp [broadcastOne, hout]

theorem broadcast_positional_alignment_witness :
    ((broadcastEvent sampleRelays)[0]?).map (fun x => x.relayUrl) =
      (sampleRelays[0]?).map (fun c => c.relayUrl) ∧
    (broadcastEvent sampleRelays)[1]? = some
      { accepted := false,
        message := orDefault (some "Connection error") "Error broadcasting to relay",
        relayUrl := "wss://relay2.example.com", success := false } :=
  ⟨broadcast_positional_alignment.1 sampleRelays 0,
   broadcast_positional_alignment.2 sampleRelays 1
     { relayUrl := "wss://relay2.example.com",
       publishOutcome := PublishOutcome.err (some "Connection error") }
     (some "Connection error") (by decide) (by decide)⟩

/-- Per-relay completion flags tracked for a live subscription
(src/use-cases/manage-subscription.js lines 42-45). -/
structure RelayStatus where
  eoseReceived : Bool
  closedReceived : Bool
deriving DecidableEq

/-- The value stored in `activeSubscriptions` for one subscription id
(src/use-cases/manage-subscription.js lines 112-118). -/
structure CoordSubInfo where
  relaySubscriptions : List (Nat × String)
  relayStatuses : List RelayStatus
  seenEventIds : List String
  eoseTimeoutId : Option Nat
deriving DecidableEq

/-- Coordinator state: the `activeSubscriptions` map (insertion ordered)
plus the timer environment — ids of `setTimeout` timers that are still
pending (neither fired nor cleared) and a fresh-id counter. -/
structure CoordState where
  subs : List (String × CoordSubInfo)
  activeTimers : List Nat
  nextTimerId : Nat
deriving DecidableEq

/-- A freshly constructed `ManageSubscriptionUseCase`. -/
def coordInit : CoordState := { subs := [], activeTimers := [], nextTimerId := 0 }

/-- A relay-level operation issued by the coordinator to a relay adapter. -/
inductive RelayOp
  | sendReq (relayIndex : Nat) (relaySubId : String)
  | sendClose (relayIndex : Nat) (relaySubId : String)
deriving DecidableEq

/-- JavaScript `Map.prototype.get` on the `activeSubscriptions` map. -/
def mapGet (m : List (String × CoordSubInfo)) (k : String) : Option CoordSubInfo :=
  (m.find? (fun p => p.1 == k)).map (fun p => p.2)

/-- JavaScript `Map.prototype.set`: update in place, else append. -/
def mapSet (m : List (String × CoordSubInfo)) (k : String) (v : CoordSubInfo) :
    List (String × CoordSubInfo) :=
  if m.any (fun p => p.1 == k) then
    m.map (fun p => if p.1 == k then (k, v) else p)
  else m ++ [(k, v)]

/-- JavaScript `Map.prototype.delete`. -/
def mapDelete (m : List (String × CoordSubInfo)) (k : String) :
    List (String × CoordSubInfo) :=
  m.filter (fun p => p.1 != k)

/-- `clearTimeout(id)`: removes the timer when still pending; a fired or
already-cleared handle is a silent no-op. -/
def clearTimer (st : CoordState) (tid : Option Nat) : CoordState :=
  match tid with
  | some t => { st with activeTimers := st.activeTimers.filter (fun x => x != t) }
  | none => st

/-- The relay-scoped subscription id (`subscriptionId-relay-index`). -/
def relayScopedId (subId : String) (i : Nat) : String :=
  subId ++ "-relay-" ++ toString i

/-- `ManageSubscriptionUseCase.createSubscription`
(src/use-cases/manage-subscription.js lines 30-162).  `reqOutcomes` gives
each relay's `sendReq` result in relay order: `none` for resolution, `some
msg` for rejection with message `msg`.  The result is the call's outcome,
the new coordinator state and the relay operations issued.  A duplicate id
throws; the catch block then looks the id up again — finding the ORIGINAL
subscription — clears its timer and deletes it before re-raising.  On a
partial `sendReq` failure the entry is removed and an error listing the
failing relays' messages is raised; no `sendClose` is issued.  On success
the EOSE fallback timer is started and recorded in the stored info. -/
def createSubscription (st : CoordState) (subId : String)
    (reqOutcomes : List (Option String)) :
    Except String Unit × CoordState × List RelayOp :=
  if (mapGet st.subs subId).isSome then
    let st1 := match mapGet st.subs subId with
      | some info => clearTimer st info.eoseTimeoutId
      | none => st
    (Except.error ("Subscription " ++ subId ++ " already exists"),
     { st1 with subs := mapDelete st1.subs subId }, [])
  else
    let n := reqOutcomes.length
    let relaySubs := (List.range n).map (fun i => (i, relayScopedId subId i))
    let ops := (List.range n).map (fun i => RelayOp.sendReq i (relayScopedId subId i))
    let info : CoordSubInfo :=
      { relaySubscriptions := relaySubs,
        relayStatuses := List.replicate n { eoseReceived := false, closedReceived := false },
        seenEventIds := [],
        eoseTimeoutId := none }
    let st1 := { st with subs := mapSet st.subs subId info }
    let errors := reqOutcomes.filterMap id
    if errors.isEmpty = false then
      (Except.error ("Failed to create subscription on some relays: " ++
         String.intercalate ", " errors),
       { st1 with subs := mapDelete st1.subs subId }, ops)
    else
      let tid := st1.nextTimerId
      (Except.ok (),
       { st1 with
           subs := mapSet st1.subs subId { info with eoseTimeoutId := some tid },
           activeTimers := st1.activeTimers ++ [tid],
           nextTimerId := tid + 1 }, ops)

/-- `ManageSubscriptionUseCase.closeSubscription`
(src/use-cases/manage-subscription.js lines 169-203): an untracked id throws
`Subscription <id> not found` (the catch block's delete is a no-op there);
otherwise the fallback timer is cleared, `sendClose` is issued for every
relay-scoped subscription (per-relay errors swallowed) and the entry is
deleted. -/
def closeSubscription (st : CoordState) (subId : String) :
    Except String Unit × CoordState × List RelayOp :=
  match mapGet st.subs subId with
  | none =>
    (Except.error ("Subscription " ++ subId ++ " not found"),
     { st with subs := mapDelete st.subs subId }, [])
  | some info =>
    let st1 := clearTimer st info.eoseTimeoutId
    (Except.ok (),
     { st1 with subs := mapDelete st1.subs subId },
     info.relaySubscriptions.map (fun p => RelayOp.sendClose p.1 p.2))

/-- `ManageSubscriptionUseCase.hasSubscription`: pure lookup. -/
def hasSubscription (st : CoordState) (subId : String) : Bool :=
  (mapGet st.subs subId).isSome

theorem mapGet_mapDelete (m : List (String × CoordSubInfo)) (k : String) :
    mapGet (mapDelete m k) k = none := by
  induction m with
  | nil => rfl
  | cons p rest ih =>
    by_cases h : p.1 = k
    · simpa [mapDelete, List.filter_cons, h] using ih
    · simp only [mapDelete, List.filter_cons] at ih ⊢
      have hb : (p.1 != k) = true := by simp [h]
      rw [if_pos hb]
      simp only [mapGet, List.find?_cons] at ih ⊢
      have hg : (p.1 == k) = false := by simp [h]
      rw [hg]
      exact ih

/-- Whether a relay operation is an unsubscribe (`sendClose`). -/
def isSendCloseOp : RelayOp → Bool
  | RelayOp.sendClose _ _ => true
  | RelayOp.sendReq _ _ => false

/-- Claim C2 counterexample: with two relays where relay 0's `sendReq`
rejects and relay 1's resolves, `createSubscription` fails and removes the
coordinator state, but the operations issued contain no `sendClose` at all —
contradicting the claimed unsubscribe of each relay whose subscribe
succeeded. -/
theorem create_failure_no_unsubscribe_cex :
    (createSubscription coordInit "sub1" [some "Connection error", none]).1 =
      Except.error "Failed to create subscription on some relays: Connection error" ∧
    hasSubscription
      (createSubscription coordInit "sub1" [some "Connection error", none]).2.1 "sub1" = false ∧
    ((createSubscription coordInit "sub1" [some "Connection error", none]).2.2).length = 2 ∧
    ((createSubscription coordInit "sub1" [some "Connection error", none]).2.2).countP
      isSendCloseOp = 0 := by
  refine ⟨rfl, rfl, rfl, rfl⟩

/-- Claim C2 as amended: for every call to `createSubscription` in which at
least one per-relay subscribe fails, all coordinator state for the id is
removed (`hasSubscription` becomes false) and the call fails with an error
whose message lists each failing relay's error message; `sendReq` was issued
to every relay, but no unsubscribe (`sendClose`) is issued to the relays
whose subscribe succeeded. -/
theorem create_failure_cleanup (st : CoordState) (subId : String)
    (reqOutcomes : List (Option String))
    (hfresh : hasSubscription st subId = false)
    (hfail : (reqOutcomes.filterMap id).isEmpty = false) :
    (createSubscription st subId reqOutcomes).1 =
      Except.error ("Failed to create subscription on some relays: " ++
        String.intercalate ", " (reqOutcomes.filterMap id)) ∧
    hasSubscription (createSubscription st subId reqOutcomes).2.1 subId = false ∧
    (createSubscription st subId reqOutcomes).2.2 =
      (List.range reqOutcomes.length).map
        (fun i => RelayOp.sendReq i (relayScopedId subId i)) ∧
    ((createSubscription st subId reqOutcomes).2.2).countP isSendCloseOp = 0 := by
  have hnone : (mapGet st.subs subId).isSome = false := hfresh
  unfold createSubscription
  rw [hnone]
  simp only [Bool.false_eq_true, if_false, hfail, if_pos]
  refine ⟨trivial, ?_, trivial, ?_⟩
  · simp [hasSubscription, mapGet_mapDelete]
  · rw [List.countP_eq_zero]
    intro op hop
    rcases List.mem_map.mp hop with ⟨i, hi, hEq⟩
    rw [← hEq]
    simp [isSendCloseOp]

theorem create_failure_cleanup_witness :
    hasSubscription coordInit "sub1" = false ∧
    (([some "Connection error", none] : List (Option String)).filterMap id).isEmpty = false ∧
    ((createSubscription coordInit "sub1" [some "Connection error", none]).1 =
      Except.error ("Failed to create subscription on some relays: " ++
        String.intercalate ", " (([some "Connection error", none] : List (Option String)).filterMap id)) ∧
    hasSubscription (createSubscription coordInit "sub1" [some "Connection error", none]).2.1 "sub1" = false ∧
    (createSubscription coordInit "sub1" [some "Connection error", none]).2.2 =
      (List.range ([some "Connection error", none] : List (Option String)).length).map
        (fun i => RelayOp.sendReq i (relayScopedId "sub1" i)) ∧
    ((createSubscription coordInit "sub1" [some "Connection error", none]).2.2).countP
      isSendCloseOp = 0) :=
  ⟨rfl, rfl,
   create_failure_cleanup coordInit "sub1" [some "Connection error", none] rfl rfl⟩

/-- Claim C3 (code evaluation): `closeSubscription` with an untracked id is
NOT an idempotent no-op — the code raises `Subscription <id> not found`
(matching the repo's integration test and contradicting the repo's unit
test, which asserts a silent idempotent return); the coordinator state is
left unchanged and no relay operation is issued. -/
theorem close_untracked_throws :
    closeSubscription coordInit "non-existent-sub" =
      (Except.error "Subscription non-existent-sub not found", coordInit, []) := by
  rfl

/-- Claim C8 (code evaluation): calling `createSubscription` again with an
already-tracked id fails with the already-exists error, but the original
subscription is NOT untouched: the catch-all cleanup looks up the original
entry, clears its fallback timer and deletes it, so `hasSubscription`
becomes false and the pending timer set becomes empty. -/
theorem duplicate_create_destroys_original :
    (createSubscription coordInit "s" [none]).1 = Except.ok () ∧
    hasSubscription (createSubscription coordInit "s" [none]).2.1 "s" = true ∧
    (createSubscription coordInit "s" [none]).2.1.activeTimers = [0] ∧
    (createSubscription (createSubscription coordInit "s" [none]).2.1 "s" [none]).1 =
      Except.error "Subscription s already exists" ∧
    hasSubscription
      (createSubscription (createSubscription coordInit "s" [none]).2.1 "s" [none]).2.1 "s" = false ∧
    (createSubscription (createSubscription coordInit "s" [none]).2.1 "s" [none]).2.1.activeTimers = [] := by
  refine ⟨rfl, rfl, rfl, rfl, rfl, rfl⟩

/-- Post-creation closure state of one live subscription: the shared
`relayStatuses` array and `seenEventIds` set captured by the per-relay
handlers, whether the id is still in `activeSubscriptions` (`tracked`),
whether the stored `eoseTimeoutId` field is non-null (`eoseTimeoutSet`), and
whether the underlying timeout is still pending, i.e. has neither fired nor
been cleared (`timerPending`).  The JavaScript timer callback never nulls
the stored field, so `eoseTimeoutSet` and `timerPending` evolve
independently. -/
structure LiveSubState where
  relayStatuses : List RelayStatus
  seenEventIds : List String
  tracked : Bool
  eoseTimeoutSet : Bool
  timerPending : Bool
deriving DecidableEq

/-- State right after a successful `createSubscription` over `n` relays:
all flags false, empty dedup set, tracked, fallback timer stored and
pending. -/
def liveSubInit (n : Nat) : LiveSubState :=
  { relayStatuses := List.replicate n { eoseReceived := false, closedReceived := false },
    seenEventIds := [],
    tracked := true,
    eoseTimeoutSet := true,
    timerPending := true }

/-- An input to a live subscription: a relay-dispatched EVENT/EOSE/CLOSED
frame for relay `i`, the firing of the fallback timer, or a
`closeSubscription` call. -/
inductive SubInput
  | relayEvent (i : Nat) (e : Option NostrEvent)
  | relayEose (i : Nat)
  | relayClosed (i : Nat) (msg : String)
  | timerFire
  | close
deriving DecidableEq

/-- An externally observable output of a live subscription: an invocation of
the caller's `onEvent` / `onEose` / `onClosed` callback, or a `sendClose`
issued to the relay with the given index. -/
inductive SubOutput
  | extEvent (e : NostrEvent)
  | extEose
  | extClosed (msg : String)
  | relayClose (relayIndex : Nat)
deriving DecidableEq

/-- In-place update of `relayStatuses[i]` (the shared array mutated by the
per-relay handlers). -/
def modifyStatus (sts : List RelayStatus) (i : Nat) (f : RelayStatus → RelayStatus) :
    List RelayStatus :=
  sts.mapIdx (fun j s => if j = i then f s else s)

/-- Whether every relay has flagged end-of-stream
(`relayStatuses.every(s => s.eoseReceived)`). -/
def allEose (sts : List RelayStatus) : Bool :=
  sts.all (fun s => s.eoseReceived)

/-- One step of a live subscription, following the per-relay handlers and
the fallback-timer callback of `ManageSubscriptionUseCase.createSubscription`
(src/use-cases/manage-subscription.js lines 48-76, 85-106 and 140-152) and
the effects of `closeSubscription` (lines 169-203) on a tracked id:

  * `relayEvent`: the unified `handlers.onEvent` dedups by `seenEventIds`
    and forwards first occurrences to the external `onEvent`;
  * `relayEose`: sets the relay's flag; when every relay has flagged, clears
    and nulls the stored timer (only when the id is still tracked and the
    field is non-null) and invokes the external `onEose`;
  * `relayClosed`: sets the relay's closed flag, invokes the external
    `onClosed(message)`, clears the timer when tracked with a non-null field
    (the field itself is not nulled) and deletes the id — no `sendClose` is
    issued to any relay;
  * `timerFire`: only a pending timer can fire; the callback invokes the
    external `onEose` when the id is still tracked and not all relays have
    flagged end-of-stream — it does not null the stored field;
  * `close`: for a tracked id, clears the timer when the stored field is
    non-null, issues `sendClose` to every relay and deletes the id (an
    untracked id throws at the coordinator level, leaving this state
    unchanged). -/
def subStep (st : LiveSubState) (inp : SubInput) : LiveSubState × List SubOutput :=
  match inp with
  | SubInput.relayEvent _ e =>
    match e with
    | some ev =>
      if ev.id ≠ "" ∧ ev.id ∉ st.seenEventIds then
        ({ st with seenEventIds := st.seenEventIds ++ [ev.id] }, [SubOutput.extEvent ev])
      else (st, [])
    | none => (st, [])
  | SubInput.relayEose i =>
    let sts := modifyStatus st.relayStatuses i (fun s => { s with eoseReceived := true })
    if allEose sts = true then
      if st.tracked = true ∧ st.eoseTimeoutSet = true then
        ({ st with relayStatuses := sts, timerPending := false, eoseTimeoutSet := false },
         [SubOutput.extEose])
      else
        ({ st with relayStatuses := sts }, [SubOutput.extEose])
    else
      ({ st with relayStatuses := sts }, [])
  | SubInput.relayClosed i msg =>
    let sts := modifyStatus st.relayStatuses i (fun s => { s with closedReceived := true })
    if st.tracked = true ∧ st.eoseTimeoutSet = true then
      ({ st with relayStatuses := sts, timerPending := false, tracked := false },
       [SubOutput.extClosed msg])
    else
      ({ st with relayStatuses := sts, tracked := false }, [SubOutput.extClosed msg])
  | SubInput.timerFire =>
    if st.timerPending = true then
      if st.tracked = true ∧ allEose st.relayStatuses = false then
        ({ st with timerPending := false }, [SubOutput.extEose])
      else
        ({ st with timerPending := false }, [])
    else (st, [])
  | SubInput.close =>
    if st.tracked = true then
      if st.eoseTimeoutSet = true then
        ({ st with timerPending := false, tracked := false },
         (List.range st.relayStatuses.length).map (fun i => SubOutput.relayClose i))
      else
        ({ st with tracked := false },
         (List.range st.relayStatuses.length).map (fun i => SubOutput.relayClose i))
    else (st, [])

/-- Run a live subscription over a list of inputs, collecting the outputs in
order. -/
def runSub (st : LiveSubState) (inps : List SubInput) : LiveSubState × List SubOutput :=
  inps.foldl (fun acc inp =>
    ((subStep acc.1 inp).1, acc.2 ++ (subStep acc.1 inp).2)) (st, [])

/-- Number of invocations of the external `onEose` callback in an output
trace. -/
def countEoseOutputs (outs : List SubOutput) : Nat :=
  outs.countP (fun o => match o with | SubOutput.extEose => true | _ => false)

/-- Number of `sendClose` relay operations in an output trace. -/
def countRelayCloseOutputs (outs : List SubOutput) : Nat :=
  outs.countP (fun o => match o with | SubOutput.relayClose _ => true | _ => false)

/-- Claim C1 (code evaluation): the unified `onEose` is NOT invoked exactly
once.  With one relay, when the fallback timer fires first and the relay's
end-of-stream arrives afterwards, the unified `onEose` fires twice — the
timer callback never nulls the stored `eoseTimeoutId` and the all-relays
branch has no once-latch.  Likewise, with two relays, a duplicate EOSE from
relay 1 after all flags are already set fires it a second time. -/
theorem eose_double_fire :
    countEoseOutputs
      (runSub (liveSubInit 1) [SubInput.timerFire, SubInput.relayEose 0]).2 = 2 ∧
    countEoseOutputs
      (runSub (liveSubInit 2)
        [SubInput.relayEose 0, SubInput.relayEose 1, SubInput.relayEose 1]).2 = 2 := by
  refine ⟨rfl, rfl⟩

/-- Claim C9 counterexample: with two relays, relay 0 delivering a closed
signal invokes the external `onClosed` and untracks the subscription, but
issues zero `sendClose` operations — the subscription is not closed on every
relay (nor even on the closing one). -/
theorem closed_no_relay_teardown_cex :
    (runSub (liveSubInit 2) [SubInput.relayClosed 0 "reason"]).2 =
      [SubOutput.extClosed "reason"] ∧
    (runSub (liveSubInit 2) [SubInput.relayClosed 0 "reason"]).1.tracked = false ∧
    countRelayCloseOutputs (runSub (liveSubInit 2) [SubInput.relayClosed 0 "reason"]).2 = 0 := by
  refine ⟨rfl, rfl, rfl⟩

/-- Claim C9 as amended: for every active (tracked, fallback timer stored)
subscription, when any single relay delivers a closed signal the external
`onClosed` callback is invoked with the reason, the fallback timer is
cancelled and the id is untracked (`hasSubscription` becomes false) — but no
close frame is issued to any relay. -/
theorem closed_teardown_amended (st : LiveSubState) (i : Nat) (msg : String)
    (htr : st.tracked = true) (hts : st.eoseTimeoutSet = true) :
    (subStep st (SubInput.relayClosed i msg)).2 = [SubOutput.extClosed msg] ∧
    (subStep st (SubInput.relayClosed i msg)).1.tracked = false ∧
    (subStep st (SubInput.relayClosed i msg)).1.timerPending = false ∧
    countRelayCloseOutputs (subStep st (SubInput.relayClosed i msg)).2 = 0 := by
  simp [subStep, htr, hts, countRelayCloseOutputs]

theorem closed_teardown_amended_witness :
    (liveSubInit 2).tracked = true ∧
    (liveSubInit 2).eoseTimeoutSet = true ∧
    ((subStep (liveSubInit 2) (SubInput.relayClosed 0 "why")).2 =
      [SubOutput.extClosed "why"] ∧
    (subStep (liveSubInit 2) (SubInput.relayClosed 0 "why")).1.tracked = false ∧
    (subStep (liveSubInit 2) (SubInput.relayClosed 0 "why")).1.timerPending = false ∧
    countRelayCloseOutputs (subStep (liveSubInit 2) (SubInput.relayClosed 0 "why")).2 = 0) :=
  ⟨rfl, rfl, closed_teardown_amended (liveSubInit 2) 0 "why" rfl rfl⟩
